import Mathlib

/-!
Shallow embedding of the sync reconciliation engine of `lib/atom-package-sync.js`
(class `AtomPackageSync`): the `sync` pass with its `syncLock` mutual-exclusion
flag, the per-status dispatch switch, the four action handlers (`backup`,
`handlePackageAdd`, `handlePackageRemove`, `applyPackageSettings`), the
`NewAtomInstance` composite, and the auto-poll scheduler
(`setupAutoUpdateCheck` / `stopAutoUpdateCheck`).

External effects (the Quantal API calls `fetchAtomSettingsInfo` and
`saveAtomSettings`, and the package install/uninstall operations of the
settings manager) are modelled by an oracle `World` holding the scripted
result of each successive call; every call also appends an `Event` to a
trace, so ordering claims can be stated about the trace.

Promise semantics are modelled explicitly.  In the `async.eachSeries`
iterator of `sync`, the code runs `func().then(() => next()).catch(err =>
{ throw err })`: a value thrown inside a promise `.catch` handler only
rejects that handler's own promise, which nothing consumes, so `next` is
never invoked and the series never finishes — the pass hangs and the outer
`.catch` that would clear `syncLock` never runs.  Likewise, when the switch
matches no case, `func` is undefined and the `if (func)` guard skips the
whole block, so `next` is again never invoked.  Both situations are
modelled by the loop result `LoopResult.stalled`, after which `sync` ends
with the lock still held.
-/

/-- Opaque settings payload carried by a change record (`packageSettings`). -/
abbrev PackageSettings := String

/-- Result object resolved by `QuantalApi.saveAtomSettings`. -/
structure SaveResult where
  success : Bool
  lastUpdate : Nat
deriving DecidableEq, Repr

/-- The `SyncStatus` values named by the dispatch switch in `sync()`.
`get-sync-changes.js` (which defines the enum) is not among the sources;
the eight named variants are exactly the cases of the switch, and
`Unknown` stands for any status value that matches no case of the switch
(the forward-compatibility situation the spec describes). -/
inductive SyncStatus where
  | FirstTimeConnect
  | AddPackagesFromClient
  | RemovePackagesFromClient
  | SettingsChangedFromClient
  | AddPackagesFromServer
  | RemovePackagesFromServer
  | PackageSettingsChangedFromServer
  | NewAtomInstance
  | Unknown (code : Nat)
deriving DecidableEq, Repr

/-- One change record produced by the change detector. -/
structure Change where
  status : SyncStatus
  packages : List String
  packageSettings : PackageSettings
  lastUpdate : Nat
deriving DecidableEq, Repr

/-- Observable events of one pass, in the order they occur. -/
inductive Event where
  | detect
  | handler (idx : Nat)
  | install (pkgs : List String)
  | uninstall (pkgs : List String)
  | fetch
  | save
  | writeSettings (p : PackageSettings)
  | setLastUpdate (v : Nat)
  | notifySuccess
deriving DecidableEq, Repr

/-- Scripted results of the successive external calls: each call of a given
kind consumes the head of its list; an exhausted list is treated as a
rejection. -/
structure World where
  fetchResults : List (Except Unit Nat)
  saveResults : List (Except Unit SaveResult)
  installResults : List (Except Unit Unit)
  uninstallResults : List (Except Unit Unit)

/-- Engine-owned mutable state: the `syncLock` flag, the `autocheckTimer`
interval handle (`false`/`undefined` modelled as `none`), the set of
intervals actually live in the runtime, the local store's `lastUpdate`,
the installed package list and the local settings. -/
structure EngineState where
  syncLock : Bool
  autocheckTimer : Option Nat
  activeTimers : List Nat
  nextTimerId : Nat
  localLastUpdate : Option Nat
  installed : List String
  settings : Option PackageSettings

/-- Full state threaded through a pass: oracle, engine state, event trace. -/
structure St where
  world : World
  engine : EngineState
  trace : List Event

def pushEvent (e : Event) (s : St) : St :=
  { s with trace := s.trace ++ [e] }

def setSyncLock (b : Bool) (s : St) : St :=
  { s with engine := { s.engine with syncLock := b } }

/-- `atomSettingsManager.setLastUpdate(v)`: persists `v` into the local
store. -/
def setLastUpdate (v : Nat) (s : St) : St :=
  pushEvent (.setLastUpdate v)
    { s with engine := { s.engine with localLastUpdate := some v } }

/-- `qlApi.fetchAtomSettingsInfo()`: consumes the next scripted fetch
result. -/
def fetchAtomSettingsInfo (s : St) : St × Except Unit Nat :=
  let s1 := pushEvent .fetch s
  match s.world.fetchResults with
  | [] => (s1, .error ())
  | r :: rest => ({ s1 with world := { s1.world with fetchResults := rest } }, r)

/-- `qlApi.saveAtomSettings(settings)`: consumes the next scripted save
result. -/
def saveAtomSettings (s : St) : St × Except Unit SaveResult :=
  let s1 := pushEvent .save s
  match s.world.saveResults with
  | [] => (s1, .error ())
  | r :: rest => ({ s1 with world := { s1.world with saveResults := rest } }, r)

/-- Modelled from the spec (the settings manager `atom-settings-manager.js`
is not among the sources): `installMissingPackages` installs the packages
not already installed, silently skipping installed ones; the oracle decides
whether the operation as a whole succeeds. -/
def installMissingPackages (pkgs : List String) (s : St) : St × Except Unit Unit :=
  let s1 := pushEvent (.install pkgs) s
  match s.world.installResults with
  | [] => (s1, .error ())
  | r :: rest =>
    let s2 := { s1 with world := { s1.world with installResults := rest } }
    match r with
    | .error e => (s2, .error e)
    | .ok _ =>
      ({ s2 with engine := { s2.engine with
          installed := s2.engine.installed
            ++ pkgs.filter (fun p => ¬ p ∈ s2.engine.installed) } }, .ok ())

/-- Modelled from the spec (`atom-settings-manager.js` is not among the
sources): `uninstallPackages` removes the listed packages, silently
skipping missing ones. -/
def uninstallPackages (pkgs : List String) (s : St) : St × Except Unit Unit :=
  let s1 := pushEvent (.uninstall pkgs) s
  match s.world.uninstallResults with
  | [] => (s1, .error ())
  | r :: rest =>
    let s2 := { s1 with world := { s1.world with uninstallResults := rest } }
    match r with
    | .error e => (s2, .error e)
    | .ok _ =>
      ({ s2 with engine := { s2.engine with
          installed := s2.engine.installed.filter (fun p => ¬ p ∈ pkgs) } }, .ok ())

/-- `atomSettingsManager.applyPackageSettings('', packageSettings)`:
synchronous local write of the settings payload. -/
def applySettingsLocally (p : PackageSettings) (s : St) : St :=
  pushEvent (.writeSettings p)
    { s with engine := { s.engine with settings := some p } }

/-- `AtomPackageSync.applyPackageSettings(packageSettings)`: writes the
payload locally, then fetches the remote settings info and persists the
returned `lastUpdate`.  The function declares a single parameter, so the
second argument passed at the dispatch site (`change.lastUpdate`) is
dropped. -/
def applyPackageSettings (packageSettings : PackageSettings) (s : St) :
    St × Except Unit Unit :=
  let s1 := applySettingsLocally packageSettings s
  match fetchAtomSettingsInfo s1 with
  | (s2, .error e) => (s2, .error e)
  | (s2, .ok info) => (setLastUpdate info s2, .ok ())

/-- `AtomPackageSync.handlePackageAdd(packages)`. -/
def handlePackageAdd (packages : List String) (s : St) : St × Except Unit Unit :=
  match installMissingPackages packages s with
  | (s1, .error e) => (s1, .error e)
  | (s1, .ok _) =>
    match fetchAtomSettingsInfo s1 with
    | (s2, .error e) => (s2, .error e)
    | (s2, .ok info) => (setLastUpdate info s2, .ok ())

/-- `AtomPackageSync.handlePackageRemove(packages)`. -/
def handlePackageRemove (packages : List String) (s : St) : St × Except Unit Unit :=
  match uninstallPackages packages s with
  | (s1, .error e) => (s1, .error e)
  | (s1, .ok _) =>
    match fetchAtomSettingsInfo s1 with
    | (s2, .error e) => (s2, .error e)
    | (s2, .ok info) => (setLastUpdate info s2, .ok ())

/-- `AtomPackageSync.backup()`: saves the local inventory remotely; on a
resolved save it persists the returned `lastUpdate` only when
`result.success === true`, and resolves in either case; a rejected save is
propagated. -/
def backup (s : St) : St × Except Unit Unit :=
  match saveAtomSettings s with
  | (s1, .error e) => (s1, .error e)
  | (s1, .ok result) =>
    (if result.success then setLastUpdate result.lastUpdate s1 else s1, .ok ())

/-- The `NewAtomInstance` composite inlined in the dispatch switch:
`handlePackageAdd(change.packages)` then `applyPackageSettings(change.packageSettings)`
then `backup()`, each chained with `.then`. -/
def newInstanceHandler (c : Change) (s : St) : St × Except Unit Unit :=
  match handlePackageAdd c.packages s with
  | (s1, .error e) => (s1, .error e)
  | (s1, .ok _) =>
    match applyPackageSettings c.packageSettings s1 with
    | (s2, .error e) => (s2, .error e)
    | (s2, .ok _) => backup s2

/-- The action a matched switch case selects. -/
inductive HandlerKind where
  | backup
  | applyAdd
  | applyRemove
  | applySettings
  | newInstance
deriving DecidableEq, Repr

/-- The dispatch switch of `sync()`: which handler a status selects;
`none` when no case matches. -/
def dispatch : SyncStatus → Option HandlerKind
  | .FirstTimeConnect => some .backup
  | .AddPackagesFromClient => some .backup
  | .RemovePackagesFromClient => some .backup
  | .SettingsChangedFromClient => some .backup
  | .AddPackagesFromServer => some .applyAdd
  | .RemovePackagesFromServer => some .applyRemove
  | .PackageSettingsChangedFromServer => some .applySettings
  | .NewAtomInstance => some .newInstance
  | .Unknown _ => none

/-- Runs the selected handler with the arguments the switch passes it.
For `applySettings` the call site passes `(change.packageSettings,
change.lastUpdate)`, but `applyPackageSettings` has one parameter, so only
the payload reaches the function. -/
def runHandlerK : HandlerKind → Change → St → St × Except Unit Unit
  | .backup, _, s => backup s
  | .applyAdd, c, s => handlePackageAdd c.packages s
  | .applyRemove, c, s => handlePackageRemove c.packages s
  | .applySettings, c, s => applyPackageSettings c.packageSettings s
  | .newInstance, c, s => newInstanceHandler c s

/-- Outcome of the `async.eachSeries` loop: `done` when every record called
`next()`; `stalled` when some record never called `next()` (handler
rejection swallowed by the rethrowing `.catch`, or no matching switch
case), so the series, and with it the whole pass, never finishes. -/
inductive LoopResult where
  | done
  | stalled
deriving DecidableEq, Repr

/-- The `async.eachSeries` loop of `sync()` over the change records. -/
def runChanges (idx : Nat) : List Change → St → St × LoopResult
  | [], s => (s, .done)
  | c :: rest, s =>
    match dispatch c.status with
    | none => (s, .stalled)
    | some k =>
      match runHandlerK k c (pushEvent (.handler idx) s) with
      | (s1, .ok _) => runChanges (idx + 1) rest s1
      | (s1, .error _) => (s1, .stalled)

/-- `AtomPackageSync.setupAutoUpdateCheck()`: no-op when a timer handle is
already held, otherwise starts one recurring interval and keeps its
handle. -/
def setupAutoUpdateCheck (e : EngineState) : EngineState :=
  if e.autocheckTimer.isSome then e
  else
    { e with autocheckTimer := some e.nextTimerId
           , activeTimers := e.activeTimers ++ [e.nextTimerId]
           , nextTimerId := e.nextTimerId + 1 }

/-- `AtomPackageSync.stopAutoUpdateCheck()`: `clearInterval` on the held
handle (a no-op when none is held) and reset the handle. -/
def stopAutoUpdateCheck (e : EngineState) : EngineState :=
  match e.autocheckTimer with
  | some id =>
    { e with activeTimers := e.activeTimers.filter (fun t => ¬ t = id)
           , autocheckTimer := none }
  | none => { e with autocheckTimer := none }

/-- How one invocation of `sync()` ends. -/
inductive SyncOutcome where
  | coalesced
  | caught
  | stalled
  | completed (nbOfChanges : Nat)
deriving DecidableEq, Repr

/-- `AtomPackageSync.sync()`.  `detected` is the result of the
`getSyncChanges()` call (its internals are outside the engine).  When the
lock is held the promise resolves immediately.  Otherwise the lock is set,
the detector is invoked, and: a detector rejection reaches the outer
`.catch`, which clears the lock; a stalled series leaves everything as it
stood, lock included; a finished series resolves with the record count,
notifies on a positive count, always calls `setupAutoUpdateCheck()`, and
then clears the lock. -/
def sync (detected : Except Unit (List Change)) (s : St) : St × SyncOutcome :=
  if s.engine.syncLock then (s, .coalesced)
  else
    let s1 := pushEvent .detect (setSyncLock true s)
    match detected with
    | .error _ => (setSyncLock false s1, .caught)
    | .ok changes =>
      match runChanges 0 changes s1 with
      | (s2, .stalled) => (s2, .stalled)
      | (s2, .done) =>
        let s3 := if 0 < changes.length then pushEvent .notifySuccess s2 else s2
        let s4 := { s3 with engine := setupAutoUpdateCheck s3.engine }
        (setSyncLock false s4, .completed changes.length)

/-- Indices of the handler invocations recorded in a trace, in order. -/
def handlerIdxs (tr : List Event) : List Nat :=
  tr.filterMap (fun e => match e with | .handler i => some i | _ => none)

/-- Number of success notifications recorded in a trace. -/
def notifCount (tr : List Event) : Nat :=
  tr.countP (fun e => match e with | .notifySuccess => true | _ => false)

/-- Composite stages visible in a trace: 1 for a package install, 2 for a
local settings write, 3 for a remote save. -/
def stageTag : Event → Option Nat
  | .install _ => some 1
  | .writeSettings _ => some 2
  | .save => some 3
  | _ => none

def stageSeq (tr : List Event) : List Nat :=
  tr.filterMap stageTag

/-- External-call events, as opposed to handler starts, detector calls and
notifications. -/
def Event.isOp : Event → Bool
  | .install _ => true
  | .uninstall _ => true
  | .fetch => true
  | .save => true
  | .writeSettings _ => true
  | .setLastUpdate _ => true
  | _ => false

/-! ### Trace bookkeeping lemmas -/

theorem trace_pushEvent (e : Event) (s : St) :
    (pushEvent e s).trace = s.trace ++ [e] := rfl

theorem trace_setLastUpdate (v : Nat) (s : St) :
    (setLastUpdate v s).trace = s.trace ++ [Event.setLastUpdate v] := rfl

theorem trace_applySettingsLocally (p : PackageSettings) (s : St) :
    (applySettingsLocally p s).trace = s.trace ++ [Event.writeSettings p] := rfl

theorem trace_fetch (s : St) :
    (fetchAtomSettingsInfo s).1.trace = s.trace ++ [Event.fetch] := by
  unfold fetchAtomSettingsInfo
  cases hw : s.world.fetchResults <;> rfl

theorem trace_save (s : St) :
    (saveAtomSettings s).1.trace = s.trace ++ [Event.save] := by
  unfold saveAtomSettings
  cases hw : s.world.saveResults <;> rfl

theorem trace_install (pkgs : List String) (s : St) :
    (installMissingPackages pkgs s).1.trace = s.trace ++ [Event.install pkgs] := by
  unfold installMissingPackages
  cases hw : s.world.installResults with
  | nil => rfl
  | cons r rest => cases r <;> rfl

theorem trace_uninstall (pkgs : List String) (s : St) :
    (uninstallPackages pkgs s).1.trace = s.trace ++ [Event.uninstall pkgs] := by
  unfold uninstallPackages
  cases hw : s.world.uninstallResults with
  | nil => rfl
  | cons r rest => cases r <;> rfl

/-- A state transformer that only appends external-call events to the
trace. -/
def OpTrace (f : St → St × Except Unit Unit) : Prop :=
  ∀ s : St, ∃ d : List Event,
    (f s).1.trace = s.trace ++ d ∧ ∀ e ∈ d, e.isOp = true

theorem opTrace_backup : OpTrace backup := by
  intro s
  rcases hs : saveAtomSettings s with ⟨s1, r⟩
  have ht : s1.trace = s.trace ++ [Event.save] := by
    have h := trace_save s; rw [hs] at h; exact h
  cases r with
  | error e =>
    refine ⟨[Event.save], ?_, ?_⟩
    · simp [backup, hs, ht]
    · simp [Event.isOp]
  | ok result =>
    by_cases hsucc : result.success
    · refine ⟨[Event.save, Event.setLastUpdate result.lastUpdate], ?_, ?_⟩
      · simp [backup, hs, hsucc, trace_setLastUpdate, ht]
      · simp [Event.isOp]
    · refine ⟨[Event.save], ?_, ?_⟩
      · simp [backup, hs, hsucc, ht]
      · simp [Event.isOp]

theorem opTrace_handlePackageAdd (pkgs : List String) :
    OpTrace (handlePackageAdd pkgs) := by
  intro s
  rcases hi : installMissingPackages pkgs s with ⟨s1, r1⟩
  have ht1 : s1.trace = s.trace ++ [Event.install pkgs] := by
    have h := trace_install pkgs s; rw [hi] at h; exact h
  cases r1 with
  | error e =>
    refine ⟨[Event.install pkgs], ?_, ?_⟩
    · simp [handlePackageAdd, hi, ht1]
    · simp [Event.isOp]
  | ok u =>
    rcases hf : fetchAtomSettingsInfo s1 with ⟨s2, r2⟩
    have ht2 : s2.trace = s1.trace ++ [Event.fetch] := by
      have h := trace_fetch s1; rw [hf] at h; exact h
    cases r2 with
    | error e =>
      refine ⟨[Event.install pkgs, Event.fetch], ?_, ?_⟩
      · simp [handlePackageAdd, hi, hf, ht2, ht1]
      · simp [Event.isOp]
    | ok v =>
      refine ⟨[Event.install pkgs, Event.fetch, Event.setLastUpdate v], ?_, ?_⟩
      · simp [handlePackageAdd, hi, hf, trace_setLastUpdate, ht2, ht1]
      · simp [Event.isOp]

theorem opTrace_handlePackageRemove (pkgs : List String) :
    OpTrace (handlePackageRemove pkgs) := by
  intro s
  rcases hi : uninstallPackages pkgs s with ⟨s1, r1⟩
  have ht1 : s1.trace = s.trace ++ [Event.uninstall pkgs] := by
    have h := trace_uninstall pkgs s; rw [hi] at h; exact h
  cases r1 with
  | error e =>
    refine ⟨[Event.uninstall pkgs], ?_, ?_⟩
    · simp [handlePackageRemove, hi, ht1]
    · simp [Event.isOp]
  | ok u =>
    rcases hf : fetchAtomSettingsInfo s1 with ⟨s2, r2⟩
    have ht2 : s2.trace = s1.trace ++ [Event.fetch] := by
      have h := trace_fetch s1; rw [hf] at h; exact h
    cases r2 with
    | error e =>
      refine ⟨[Event.uninstall pkgs, Event.fetch], ?_, ?_⟩
      · simp [handlePackageRemove, hi, hf, ht2, ht1]
      · simp [Event.isOp]
    | ok v =>
      refine ⟨[Event.uninstall pkgs, Event.fetch, Event.setLastUpdate v], ?_, ?_⟩
      · simp [handlePackageRemove, hi, hf, trace_setLastUpdate, ht2, ht1]
      · simp [Event.isOp]

theorem opTrace_applyPackageSettings (p : PackageSettings) :
    OpTrace (applyPackageSettings p) := by
  intro s
  rcases hf : fetchAtomSettingsInfo (applySettingsLocally p s) with ⟨s2, r2⟩
  have ht2 : s2.trace = s.trace ++ [Event.writeSettings p, Event.fetch] := by
    have h := trace_fetch (applySettingsLocally p s); rw [hf] at h
    simpa [trace_applySettingsLocally] using h
  cases r2 with
  | error e =>
    refine ⟨[Event.writeSettings p, Event.fetch], ?_, ?_⟩
    · simp [applyPackageSettings, hf, ht2]
    · simp [Event.isOp]
  | ok v =>
    refine ⟨[Event.writeSettings p, Event.fetch, Event.setLastUpdate v], ?_, ?_⟩
    · simp [applyPackageSettings, hf, trace_setLastUpdate, ht2]
    · simp [Event.isOp]

theorem opTrace_newInstanceHandler (c : Change) :
    OpTrace (newInstanceHandler c) := by
  intro s
  rcases h1 : handlePackageAdd c.packages s with ⟨s1, r1⟩
  obtain ⟨d1, hd1, hop1⟩ := opTrace_handlePackageAdd c.packages s
  rw [h1] at hd1
  replace hd1 : s1.trace = s.trace ++ d1 := hd1
  cases r1 with
  | error e =>
    exact ⟨d1, by simp [newInstanceHandler, h1, hd1], hop1⟩
  | ok u =>
    rcases h2 : applyPackageSettings c.packageSettings s1 with ⟨s2, r2⟩
    obtain ⟨d2, hd2, hop2⟩ := opTrace_applyPackageSettings c.packageSettings s1
    rw [h2] at hd2
    replace hd2 : s2.trace = s1.trace ++ d2 := hd2
    cases r2 with
    | error e =>
      refine ⟨d1 ++ d2, ?_, ?_⟩
      · simp [newInstanceHandler, h1, h2, hd2, hd1]
      · intro e he
        rcases List.mem_append.mp he with h | h
        · exact hop1 e h
        · exact hop2 e h
    | ok u2 =>
      obtain ⟨d3, hd3, hop3⟩ := opTrace_backup s2
      refine ⟨d1 ++ d2 ++ d3, ?_, ?_⟩
      · simp [newInstanceHandler, h1, h2, hd3, hd2, hd1]
      · intro e he
        rcases List.mem_append.mp he with h | h
        · rcases List.mem_append.mp h with h2m | h2m
          · exact hop1 e h2m
          · exact hop2 e h2m
        · exact hop3 e h

theorem opTrace_runHandlerK (k : HandlerKind) (c : Change) :
    OpTrace (runHandlerK k c) := by
  cases k with
  | backup => exact opTrace_backup
  | applyAdd => exact opTrace_handlePackageAdd c.packages
  | applyRemove => exact opTrace_handlePackageRemove c.packages
  | applySettings => exact opTrace_applyPackageSettings c.packageSettings
  | newInstance => exact opTrace_newInstanceHandler c

theorem handlerIdxs_append (t u : List Event) :
    handlerIdxs (t ++ u) = handlerIdxs t ++ handlerIdxs u := by
  unfold handlerIdxs
  exact List.filterMap_append t u _

theorem notifCount_append (t u : List Event) :
    notifCount (t ++ u) = notifCount t + notifCount u := by
  unfold notifCount
  exact List.countP_append _ t u

theorem stageSeq_append (t u : List Event) :
    stageSeq (t ++ u) = stageSeq t ++ stageSeq u := by
  unfold stageSeq
  exact List.filterMap_append t u _

theorem handlerIdxs_of_op (d : List Event) (h : ∀ e ∈ d, e.isOp = true) :
    handlerIdxs d = [] := by
  unfold handlerIdxs
  refine List.filterMap_eq_nil_iff.mpr fun e he => ?_
  have := h e he
  cases e <;> simp_all [Event.isOp]

theorem notifCount_of_op (d : List Event) (h : ∀ e ∈ d, e.isOp = true) :
    notifCount d = 0 := by
  unfold notifCount
  refine List.countP_eq_zero.mpr fun e he => ?_
  have := h e he
  cases e <;> simp_all [Event.isOp]

theorem handlerIdxs_runHandlerK (k : HandlerKind) (c : Change) (s : St) :
    handlerIdxs ((runHandlerK k c s).1.trace) = handlerIdxs s.trace := by
  obtain ⟨d, hd, hop⟩ := opTrace_runHandlerK k c s
  rw [hd, handlerIdxs_append, handlerIdxs_of_op d hop, List.append_nil]

theorem notifCount_runHandlerK (k : HandlerKind) (c : Change) (s : St) :
    notifCount ((runHandlerK k c s).1.trace) = notifCount s.trace := by
  obtain ⟨d, hd, hop⟩ := opTrace_runHandlerK k c s
  rw [hd, notifCount_append, notifCount_of_op d hop, Nat.add_zero]

/-- The series loop never emits a notification itself. -/
theorem notifCount_runChanges (cs : List Change) (idx : Nat) (s : St) :
    notifCount ((runChanges idx cs s).1.trace) = notifCount s.trace := by
  induction cs generalizing idx s with
  | nil => rfl
  | cons c rest ih =>
    show notifCount ((runChanges idx (c :: rest) s).1.trace) = notifCount s.trace
    unfold runChanges
    cases hd : dispatch c.status with
    | none => rfl
    | some k =>
      rcases hr : runHandlerK k c (pushEvent (.handler idx) s) with ⟨s1, r⟩
      have hn : notifCount s1.trace = notifCount s.trace := by
        have h := notifCount_runHandlerK k c (pushEvent (.handler idx) s)
        rw [hr] at h
        replace h : notifCount s1.trace
            = notifCount ((pushEvent (.handler idx) s).trace) := h
        rw [h, trace_pushEvent, notifCount_append]
        have hz : notifCount [Event.handler idx] = 0 := rfl
        rw [hz, Nat.add_zero]
      cases r with
      | error e => simpa [hr] using hn
      | ok u => simp [hr, ih, hn]

/-! ### Stage-sequence lemmas for the composite handler -/

theorem stageSeq_install_one (pkgs : List String) :
    stageSeq [Event.install pkgs] = [1] := rfl

theorem stageSeq_write_two (p : PackageSettings) :
    stageSeq [Event.writeSettings p] = [2] := rfl

theorem stageSeq_save_three : stageSeq [Event.save] = [3] := rfl

theorem stageSeq_fetch_nil : stageSeq [Event.fetch] = [] := rfl

theorem stageSeq_setLastUpdate_nil (v : Nat) :
    stageSeq [Event.setLastUpdate v] = [] := rfl

theorem stageSeq_handlePackageAdd (pkgs : List String) (s : St) :
    stageSeq ((handlePackageAdd pkgs s).1.trace) = stageSeq s.trace ++ [1] := by
  rcases hi : installMissingPackages pkgs s with ⟨s1, r1⟩
  have ht1 : s1.trace = s.trace ++ [Event.install pkgs] := by
    have h := trace_install pkgs s; rw [hi] at h; exact h
  have hs1 : stageSeq s1.trace = stageSeq s.trace ++ [1] := by
    rw [ht1, stageSeq_append, stageSeq_install_one]
  cases r1 with
  | error e => simp [handlePackageAdd, hi, hs1]
  | ok u =>
    rcases hf : fetchAtomSettingsInfo s1 with ⟨s2, r2⟩
    have ht2 : s2.trace = s1.trace ++ [Event.fetch] := by
      have h := trace_fetch s1; rw [hf] at h; exact h
    have hs2 : stageSeq s2.trace = stageSeq s.trace ++ [1] := by
      rw [ht2, stageSeq_append, stageSeq_fetch_nil, List.append_nil, hs1]
    cases r2 with
    | error e => simp [handlePackageAdd, hi, hf, hs2]
    | ok v =>
      simp [handlePackageAdd, hi, hf, trace_setLastUpdate, stageSeq_append,
        stageSeq_setLastUpdate_nil, hs2]

theorem stageSeq_applyPackageSettings (p : PackageSettings) (s : St) :
    stageSeq ((applyPackageSettings p s).1.trace) = stageSeq s.trace ++ [2] := by
  rcases hf : fetchAtomSettingsInfo (applySettingsLocally p s) with ⟨s2, r2⟩
  have ht2 : s2.trace = s.trace ++ [Event.writeSettings p, Event.fetch] := by
    have h := trace_fetch (applySettingsLocally p s); rw [hf] at h
    simpa [trace_applySettingsLocally] using h
  have hs2 : stageSeq s2.trace = stageSeq s.trace ++ [2] := by
    rw [ht2, stageSeq_append]
    have hx : stageSeq [Event.writeSettings p, Event.fetch] = [2] := rfl
    rw [hx]
  cases r2 with
  | error e => simp [applyPackageSettings, hf, hs2]
  | ok v =>
    simp [applyPackageSettings, hf, trace_setLastUpdate, stageSeq_append,
      stageSeq_setLastUpdate_nil, hs2]

theorem stageSeq_backup (s : St) :
    stageSeq ((backup s).1.trace) = stageSeq s.trace ++ [3] := by
  rcases hs : saveAtomSettings s with ⟨s1, r⟩
  have ht : s1.trace = s.trace ++ [Event.save] := by
    have h := trace_save s; rw [hs] at h; exact h
  have hs1 : stageSeq s1.trace = stageSeq s.trace ++ [3] := by
    rw [ht, stageSeq_append, stageSeq_save_three]
  cases r with
  | error e => simp [backup, hs, hs1]
  | ok result =>
    by_cases hsucc : result.success
    · simp [backup, hs, hsucc, trace_setLastUpdate, stageSeq_append,
        stageSeq_setLastUpdate_nil, hs1]
    · simp [backup, hs, hsucc, hs1]

/-! ### Concrete states used by the claim theorems -/

/-- A quiescent engine: lock free, no timer armed, empty local store. -/
def engine0 : EngineState :=
  { syncLock := false, autocheckTimer := none, activeTimers := [], nextTimerId := 0
  , localLastUpdate := none, installed := [], settings := none }

/-- A world with no scripted results (every external call would reject). -/
def world0 : World :=
  { fetchResults := [], saveResults := [], installResults := [], uninstallResults := [] }

def st0 : St := { world := world0, engine := engine0, trace := [] }

/-- Same quiescent state but with the sync lock already held. -/
def lockedSt : St :=
  { world := world0, engine := { engine0 with syncLock := true }, trace := [] }

/-- A `FirstTimeConnect` change record (dispatched to `backup`). -/
def chFirst : Change :=
  { status := .FirstTimeConnect, packages := [], packageSettings := "", lastUpdate := 0 }

/-- A change record with a status matching no case of the dispatch switch. -/
def chUnmatched : Change :=
  { status := .Unknown 42, packages := [], packageSettings := "", lastUpdate := 0 }

/-- State whose single scripted remote save rejects. -/
def stSaveFail : St :=
  { world := { world0 with saveResults := [Except.error ()] }
  , engine := engine0, trace := [] }

/-- State whose single scripted remote save resolves successfully. -/
def stSaveOk : St :=
  { world := { world0 with saveResults := [Except.ok { success := true, lastUpdate := 9 }] }
  , engine := engine0, trace := [] }

/-! ### Claim theorems -/

/-- C1: the claim says a sync pass always clears `syncLock` by the time the
pass ends, in particular after a handler failure mid-sequence.  The code
releases the lock on a detector failure and on success, but a handler
rejection is rethrown inside a promise `.catch`, so `next` is never called,
the series never finishes and the lock is never cleared: at a pass with a
single `FirstTimeConnect` record whose remote save rejects, the pass stalls
with `syncLock` still `true` after the handler ran and failed. -/
theorem c1_handler_failure_leaves_lock_held :
    (sync (Except.error ()) st0).1.engine.syncLock = false ∧
    (sync (Except.ok []) st0).1.engine.syncLock = false ∧
    (sync (Except.ok [chFirst]) stSaveFail).2 = SyncOutcome.stalled ∧
    (sync (Except.ok [chFirst]) stSaveFail).1.engine.syncLock = true ∧
    (sync (Except.ok [chFirst]) stSaveFail).1.trace
      = [Event.detect, Event.handler 0, Event.save] :=
  ⟨rfl, rfl, rfl, rfl, rfl⟩

/-- C2: the claim says a record whose status matches no case of the dispatch
switch is skipped and the pass continues to completion.  In the code the
`if (func)` guard skips the whole block without ever calling `next()`, so
the series hangs: with an unmatched record followed by a `FirstTimeConnect`
record (whose save would succeed), the pass stalls, the second record is
never processed (no handler event, no save event) and the lock stays
held. -/
theorem c2_unmatched_status_stalls_pass :
    dispatch chUnmatched.status = none ∧
    (sync (Except.ok [chUnmatched, chFirst]) stSaveOk).2 = SyncOutcome.stalled ∧
    (sync (Except.ok [chUnmatched, chFirst]) stSaveOk).1.engine.syncLock = true ∧
    (sync (Except.ok [chUnmatched, chFirst]) stSaveOk).1.trace = [Event.detect] :=
  ⟨rfl, rfl, rfl, rfl⟩

/-- C3: when `syncLock` is already held, `sync` returns immediately as a
successful no-op: the change detector is not called, no handler runs and
the whole state (engine, oracle and trace) is returned unchanged.  Under
the single-threaded execution model this is what keeps at most one
reconciliation pass active at a time. -/
theorem c3_sync_locked_is_noop (detected : Except Unit (List Change)) (s : St)
    (h : s.engine.syncLock = true) :
    sync detected s = (s, SyncOutcome.coalesced) := by
  simp [sync, h]

theorem c3_sync_locked_is_noop_witness :
    lockedSt.engine.syncLock = true ∧
    sync (Except.ok [chFirst]) lockedSt = (lockedSt, SyncOutcome.coalesced) :=
  ⟨rfl, c3_sync_locked_is_noop (Except.ok [chFirst]) lockedSt rfl⟩

/-- C8: the dispatch switch maps `FirstTimeConnect`,
`AddPackagesFromClient`, `RemovePackagesFromClient` and
`SettingsChangedFromClient` to the backup handler,
`AddPackagesFromServer` to apply-add on the record's packages,
`RemovePackagesFromServer` to apply-remove on the record's packages, and
`PackageSettingsChangedFromServer` to apply-settings on the record's
settings payload. -/
theorem c8_dispatch_table :
    dispatch SyncStatus.FirstTimeConnect = some HandlerKind.backup ∧
    dispatch SyncStatus.AddPackagesFromClient = some HandlerKind.backup ∧
    dispatch SyncStatus.RemovePackagesFromClient = some HandlerKind.backup ∧
    dispatch SyncStatus.SettingsChangedFromClient = some HandlerKind.backup ∧
    dispatch SyncStatus.AddPackagesFromServer = some HandlerKind.applyAdd ∧
    dispatch SyncStatus.RemovePackagesFromServer = some HandlerKind.applyRemove ∧
    dispatch SyncStatus.PackageSettingsChangedFromServer = some HandlerKind.applySettings ∧
    (∀ (c : Change) (s : St), runHandlerK HandlerKind.backup c s = backup s) ∧
    (∀ (c : Change) (s : St),
      runHandlerK HandlerKind.applyAdd c s = handlePackageAdd c.packages s) ∧
    (∀ (c : Change) (s : St),
      runHandlerK HandlerKind.applyRemove c s = handlePackageRemove c.packages s) ∧
    (∀ (c : Change) (s : St),
      runHandlerK HandlerKind.applySettings c s = applyPackageSettings c.packageSettings s) :=
  ⟨rfl, rfl, rfl, rfl, rfl, rfl, rfl,
    fun _ _ => rfl, fun _ _ => rfl, fun _ _ => rfl, fun _ _ => rfl⟩

/-- C9: arming the auto-poll scheduler is idempotent — a second `arm` on an
armed engine is a no-op, and from a clean engine two `arm`s leave exactly
one live recurring interval — and `disarm` is safe when already disarmed,
so `disarm` twice equals `disarm` once. -/
theorem c9_scheduler_idempotent (e : EngineState)
    (h : e.autocheckTimer = none ∧ e.activeTimers = []) :
    setupAutoUpdateCheck (setupAutoUpdateCheck e) = setupAutoUpdateCheck e ∧
    (setupAutoUpdateCheck (setupAutoUpdateCheck e)).activeTimers.length = 1 ∧
    ∀ f : EngineState, stopAutoUpdateCheck (stopAutoUpdateCheck f) = stopAutoUpdateCheck f := by
  obtain ⟨h1, h2⟩ := h
  refine ⟨?_, ?_, ?_⟩
  · simp [setupAutoUpdateCheck, h1]
  · simp [setupAutoUpdateCheck, h1, h2]
  · intro f
    obtain ⟨lock, timer, act, nid, lu, inst, stg⟩ := f
    cases timer <;> rfl

theorem c9_scheduler_idempotent_witness :
    (engine0.autocheckTimer = none ∧ engine0.activeTimers = []) ∧
    (setupAutoUpdateCheck (setupAutoUpdateCheck engine0) = setupAutoUpdateCheck engine0 ∧
     (setupAutoUpdateCheck (setupAutoUpdateCheck engine0)).activeTimers.length = 1 ∧
     ∀ f : EngineState, stopAutoUpdateCheck (stopAutoUpdateCheck f) = stopAutoUpdateCheck f) :=
  ⟨⟨rfl, rfl⟩, c9_scheduler_idempotent engine0 ⟨rfl, rfl⟩⟩

/-- C10: `applyPackageSettings` ignores the `lastUpdate` carried by the
change record — the dispatch site passes it as a second argument but the
function has a single parameter — so the local `lastUpdate` written after
applying a settings payload is always the value returned by the fresh
remote metadata fetch, and the handler's behavior is unchanged under any
value of the record's own `lastUpdate` field. -/
theorem c10_applyPackageSettings_ignores_record_lastUpdate
    (c : Change) (s : St) (v : Nat)
    (hfetch : s.world.fetchResults.head? = some (Except.ok v)) :
    (runHandlerK HandlerKind.applySettings c s).1.engine.localLastUpdate = some v ∧
    ∀ lu : Nat,
      runHandlerK HandlerKind.applySettings { c with lastUpdate := lu } s
        = runHandlerK HandlerKind.applySettings c s := by
  constructor
  · rcases hw : s.world.fetchResults with _ | ⟨r, rest⟩
    · rw [hw] at hfetch; exact Option.noConfusion hfetch
    · rw [hw] at hfetch
      have hr : r = Except.ok v := by
        have := Option.some.inj hfetch
        simpa using this
      subst hr
      simp [runHandlerK, applyPackageSettings, fetchAtomSettingsInfo,
        applySettingsLocally, pushEvent, setLastUpdate, hw]
  · intro lu; rfl

/-- State whose single scripted fetch returns `lastUpdate = 7`. -/
def stFetch7 : St :=
  { world := { world0 with fetchResults := [Except.ok 7] }
  , engine := engine0, trace := [] }

/-- A server-settings-changed record carrying its own `lastUpdate = 3`. -/
def chSettings : Change :=
  { status := .PackageSettingsChangedFromServer, packages := []
  , packageSettings := "payload", lastUpdate := 3 }

theorem c10_applyPackageSettings_ignores_record_lastUpdate_witness :
    stFetch7.world.fetchResults.head? = some (Except.ok 7) ∧
    ((runHandlerK HandlerKind.applySettings chSettings stFetch7).1.engine.localLastUpdate
        = some 7 ∧
     ∀ lu : Nat,
       runHandlerK HandlerKind.applySettings { chSettings with lastUpdate := lu } stFetch7
         = runHandlerK HandlerKind.applySettings chSettings stFetch7) :=
  ⟨rfl, c10_applyPackageSettings_ignores_record_lastUpdate chSettings stFetch7 7 rfl⟩

/-- C4: handlers execute strictly sequentially in record order; when the
handler of the second of three records fails, the pass stops there: the
third record's handler is never invoked, and the handler events recorded
are exactly the starts of the first two handlers in order. -/
theorem c4_handlers_sequential_failfast (c1 c2 c3 : Change) (k1 k2 : HandlerKind)
    (s s1 s2 : St)
    (hd1 : dispatch c1.status = some k1)
    (hd2 : dispatch c2.status = some k2)
    (h1 : runHandlerK k1 c1 (pushEvent (.handler 0) s) = (s1, Except.ok ()))
    (h2 : runHandlerK k2 c2 (pushEvent (.handler 1) s1) = (s2, Except.error ())) :
    runChanges 0 [c1, c2, c3] s = (s2, LoopResult.stalled) ∧
    handlerIdxs s2.trace = handlerIdxs s.trace ++ [0, 1] := by
  have e1 : handlerIdxs s1.trace = handlerIdxs s.trace ++ [0] := by
    have h := handlerIdxs_runHandlerK k1 c1 (pushEvent (.handler 0) s)
    rw [h1] at h
    replace h : handlerIdxs s1.trace = handlerIdxs (pushEvent (.handler 0) s).trace := h
    rw [h, trace_pushEvent, handlerIdxs_append]
    rfl
  have e2 : handlerIdxs s2.trace = handlerIdxs s1.trace ++ [1] := by
    have h := handlerIdxs_runHandlerK k2 c2 (pushEvent (.handler 1) s1)
    rw [h2] at h
    replace h : handlerIdxs s2.trace = handlerIdxs (pushEvent (.handler 1) s1).trace := h
    rw [h, trace_pushEvent, handlerIdxs_append]
    rfl
  constructor
  · simp [runChanges, hd1, hd2, h1, h2]
  · rw [e2, e1, List.append_assoc]
    rfl

/-- State whose two scripted saves resolve successfully and then reject, so
the first `backup` handler succeeds and the second fails. -/
def stC4 : St :=
  { world := { world0 with
      saveResults := [Except.ok { success := true, lastUpdate := 7 }, Except.error ()] }
  , engine := engine0, trace := [] }

def c4s1 : St := (runHandlerK HandlerKind.backup chFirst (pushEvent (.handler 0) stC4)).1

def c4s2 : St := (runHandlerK HandlerKind.backup chFirst (pushEvent (.handler 1) c4s1)).1

theorem c4_handlers_sequential_failfast_witness :
    runChanges 0 [chFirst, chFirst, chFirst] stC4 = (c4s2, LoopResult.stalled) ∧
    handlerIdxs c4s2.trace = handlerIdxs stC4.trace ++ [0, 1] :=
  c4_handlers_sequential_failfast chFirst chFirst chFirst
    HandlerKind.backup HandlerKind.backup stC4 c4s1 c4s2 rfl rfl rfl rfl

/-- After `setupAutoUpdateCheck` a timer handle is always held. -/
theorem setupAutoUpdateCheck_isSome (e : EngineState) :
    (setupAutoUpdateCheck e).autocheckTimer.isSome = true := by
  unfold setupAutoUpdateCheck
  by_cases h : e.autocheckTimer.isSome = true
  · simp [h]
  · simp [h]

/-- C5 counterexample: a successful pass over an empty change sequence emits
no notification — but, contrary to the claim, it still arms the auto-poll
timer: starting from a disarmed engine, the empty pass completes with the
timer newly armed. -/
theorem c5_counterexample_empty_pass_arms_timer :
    (sync (Except.ok []) st0).2 = SyncOutcome.completed 0 ∧
    notifCount (sync (Except.ok []) st0).1.trace = 0 ∧
    st0.engine.autocheckTimer = none ∧
    (sync (Except.ok []) st0).1.engine.autocheckTimer = some 0 :=
  ⟨rfl, rfl, rfl, rfl⟩

/-- Closed form of a `sync` pass whose series loop finishes. -/
theorem sync_done_eq (changes : List Change) (s s2 : St)
    (hlock : s.engine.syncLock = false)
    (hrc : runChanges 0 changes (pushEvent .detect (setSyncLock true s))
        = (s2, LoopResult.done)) :
    sync (Except.ok changes) s
      = (setSyncLock false
          { (if 0 < changes.length then pushEvent Event.notifySuccess s2 else s2) with
            engine := setupAutoUpdateCheck
              (if 0 < changes.length then pushEvent Event.notifySuccess s2 else s2).engine },
         SyncOutcome.completed changes.length) := by
  simp [sync, hlock, hrc]

/-- C5 amended: on a pass in which the series finishes, the success
notification is emitted iff the number of processed records is positive,
while the auto-poll scheduler is armed unconditionally (idempotently) at
the end of every successful pass, including one with an empty change
sequence. -/
theorem c5_notify_iff_changes_timer_always (changes : List Change) (s : St)
    (hlock : s.engine.syncLock = false)
    (hdone : (runChanges 0 changes (pushEvent .detect (setSyncLock true s))).2
        = LoopResult.done) :
    (sync (Except.ok changes) s).2 = SyncOutcome.completed changes.length ∧
    notifCount (sync (Except.ok changes) s).1.trace
      = notifCount s.trace + (if 0 < changes.length then 1 else 0) ∧
    (sync (Except.ok changes) s).1.engine.autocheckTimer.isSome = true := by
  rcases hrc : runChanges 0 changes (pushEvent .detect (setSyncLock true s)) with ⟨s2, r⟩
  rw [hrc] at hdone
  replace hdone : r = LoopResult.done := hdone
  subst hdone
  have hnotif2 : notifCount s2.trace = notifCount s.trace := by
    have h := notifCount_runChanges changes 0 (pushEvent .detect (setSyncLock true s))
    rw [hrc] at h
    replace h : notifCount s2.trace
        = notifCount (pushEvent .detect (setSyncLock true s)).trace := h
    rw [h, trace_pushEvent, notifCount_append]
    rfl
  rw [sync_done_eq changes s s2 hlock hrc]
  have hone : notifCount [Event.notifySuccess] = 1 := rfl
  refine ⟨rfl, ?_, ?_⟩
  · by_cases hlen : 0 < changes.length
    · simp [setSyncLock, pushEvent, hlen, notifCount_append, hnotif2, hone]
    · simp [setSyncLock, hlen, hnotif2]
  · simp [setSyncLock, setupAutoUpdateCheck_isSome]

theorem c5_notify_iff_changes_timer_always_witness :
    stSaveOk.engine.syncLock = false ∧
    (runChanges 0 [chFirst] (pushEvent .detect (setSyncLock true stSaveOk))).2
      = LoopResult.done ∧
    ((sync (Except.ok [chFirst]) stSaveOk).2 = SyncOutcome.completed 1 ∧
     notifCount (sync (Except.ok [chFirst]) stSaveOk).1.trace
       = notifCount stSaveOk.trace + (if 0 < [chFirst].length then 1 else 0) ∧
     (sync (Except.ok [chFirst]) stSaveOk).1.engine.autocheckTimer.isSome = true) :=
  ⟨rfl, rfl, c5_notify_iff_changes_timer_always [chFirst] stSaveOk rfl rfl⟩

/-- State whose single scripted save resolves but reports `success = false`,
carrying `lastUpdate = 42`. -/
def stSaveNoSuccess : St :=
  { world := { world0 with
      saveResults := [Except.ok { success := false, lastUpdate := 42 }] }
  , engine := engine0, trace := [] }

/-- C6 counterexample: the claim allows only two outcomes of `backup` —
success having persisted the remote-returned `lastUpdate`, or failure
propagating the save error.  When the save resolves with
`success = false`, `backup` exhibits a third outcome: it resolves
successfully without persisting anything. -/
theorem c6_counterexample_third_outcome :
    ¬ ((backup stSaveNoSuccess).2 = Except.error ()
        ∨ (backup stSaveNoSuccess).1.engine.localLastUpdate = some 42) := by
  rintro (h | h)
  · have hok : (backup stSaveNoSuccess).2 = Except.ok () := rfl
    rw [hok] at h
    exact Except.noConfusion h
  · have hnone : (backup stSaveNoSuccess).1.engine.localLastUpdate = none := rfl
    rw [hnone] at h
    exact Option.noConfusion h

/-- What the amended claim says `backup` resolves to, as a function of the
remote save result: a rejected save is propagated, a resolved save means
success. -/
def backupResultSpec : Except Unit SaveResult → Except Unit Unit
  | .ok _ => .ok ()
  | .error e => .error e

/-- What the amended claim says the local `lastUpdate` holds after `backup`,
as a function of the previous value and the remote save result: the
returned `lastUpdate` is persisted exactly when the result reports
`success = true`. -/
def backupLastUpdateSpec (prev : Option Nat) : Except Unit SaveResult → Option Nat
  | .ok res => if res.success then some res.lastUpdate else prev
  | .error _ => prev

/-- C6 amended: `backup` propagates a rejected remote save; a resolved save
always makes `backup` succeed, and it persists the returned `lastUpdate`
into the local store exactly when the result reports `success = true`,
leaving the local `lastUpdate` untouched otherwise. -/
theorem c6_backup_outcomes (s : St) (r : Except Unit SaveResult)
    (hs : s.world.saveResults.head? = some r) :
    (backup s).2 = backupResultSpec r ∧
    (backup s).1.engine.localLastUpdate
      = backupLastUpdateSpec s.engine.localLastUpdate r := by
  rcases hw : s.world.saveResults with _ | ⟨r0, rest⟩
  · rw [hw] at hs; exact Option.noConfusion hs
  · rw [hw] at hs
    have hr : r0 = r := Option.some.inj hs
    subst hr
    cases r0 with
    | error e =>
      constructor <;>
        simp [backup, saveAtomSettings, pushEvent, hw,
          backupResultSpec, backupLastUpdateSpec]
    | ok res =>
      by_cases hsucc : res.success
      · constructor <;>
          simp [backup, saveAtomSettings, pushEvent, setLastUpdate, hw, hsucc,
            backupResultSpec, backupLastUpdateSpec]
      · constructor <;>
          simp [backup, saveAtomSettings, pushEvent, hw, hsucc,
            backupResultSpec, backupLastUpdateSpec]

theorem c6_backup_outcomes_witness :
    stSaveOk.world.saveResults.head?
      = some (Except.ok { success := true, lastUpdate := 9 }) ∧
    ((backup stSaveOk).2
        = backupResultSpec (Except.ok { success := true, lastUpdate := 9 }) ∧
     (backup stSaveOk).1.engine.localLastUpdate
        = backupLastUpdateSpec stSaveOk.engine.localLastUpdate
            (Except.ok { success := true, lastUpdate := 9 })) :=
  ⟨rfl, c6_backup_outcomes stSaveOk (Except.ok { success := true, lastUpdate := 9 }) rfl⟩

/-- Number of stages of the `NewAtomInstance` composite chain that start
before an error cuts the promise chain: 1 when apply-add fails, 2 when
apply-add succeeds and apply-settings fails, 3 otherwise. -/
def compositeStages (c : Change) (s : St) : Nat :=
  match handlePackageAdd c.packages s with
  | (_, .error _) => 1
  | (s1, .ok _) =>
    match applyPackageSettings c.packageSettings s1 with
    | (_, .error _) => 2
    | (_, .ok _) => 3

/-- C7: the `NewAtomInstance` record dispatches to the composite that runs
apply-add, then apply-settings, then backup strictly in that order, each
awaited before the next starts: the stage events recorded by the composite
are exactly the first `compositeStages` entries of `[1, 2, 3]`, so a
failure at any stage aborts all remaining stages. -/
theorem c7_new_instance_composite (c : Change) (s : St) :
    dispatch SyncStatus.NewAtomInstance = some HandlerKind.newInstance ∧
    runHandlerK HandlerKind.newInstance c s = newInstanceHandler c s ∧
    compositeStages c s ≤ 3 ∧
    stageSeq ((newInstanceHandler c s).1.trace)
      = stageSeq s.trace ++ List.take (compositeStages c s) [1, 2, 3] := by
  refine ⟨rfl, rfl, ?_, ?_⟩
  · unfold compositeStages
    rcases h1 : handlePackageAdd c.packages s with ⟨s1, r1⟩
    cases r1 with
    | error e => simp [h1]
    | ok u =>
      rcases h2 : applyPackageSettings c.packageSettings s1 with ⟨s2, r2⟩
      cases r2 <;> simp [h1, h2]
  · rcases h1 : handlePackageAdd c.packages s with ⟨s1, r1⟩
    have hs1 : stageSeq s1.trace = stageSeq s.trace ++ [1] := by
      have h := stageSeq_handlePackageAdd c.packages s; rw [h1] at h; exact h
    cases r1 with
    | error e =>
      simp [newInstanceHandler, compositeStages, h1, hs1]
    | ok u =>
      rcases h2 : applyPackageSettings c.packageSettings s1 with ⟨s2, r2⟩
      have hs2 : stageSeq s2.trace = stageSeq s.trace ++ [1, 2] := by
        have h := stageSeq_applyPackageSettings c.packageSettings s1
        rw [h2] at h
        replace h : stageSeq s2.trace = stageSeq s1.trace ++ [2] := h
        rw [h, hs1, List.append_assoc]
        rfl
      cases r2 with
      | error e =>
        simp [newInstanceHandler, compositeStages, h1, h2, hs2]
      | ok u2 =>
        have hs3 : stageSeq ((backup s2).1.trace) = stageSeq s.trace ++ [1, 2, 3] := by
          rw [stageSeq_backup, hs2, List.append_assoc]
          rfl
        simp [newInstanceHandler, compositeStages, h1, h2, hs3]
